import Mathlib

/-!
Verification development for the RenewalRadar subscription-tracker CLI.

Each definition below is a shallow embedding of a function of the Python
source tree (file and symbol named in its doc comment).  Numbers are
modelled as exact rationals, calendar dates as a record of numerals,
fallible code as `Except`/`Option`.  The theorems at the end of the file
settle the frozen claims C1..C10 about the program.
-/

namespace RenewalRadar

/-! ## Calendar dates

Model of the subset of Python `datetime.date` / `dateutil.relativedelta`
behaviour the program uses: ISO parsing and formatting, lexicographic
comparison, `relativedelta(months=1)` / `relativedelta(years=1)` (which
clamp the day to the end of the target month), and `timedelta(days=n)`. -/

structure Date where
  year : Nat
  month : Nat
  day : Nat
deriving DecidableEq, Repr

/-- Gregorian leap-year rule, as implemented by `datetime`. -/
def isLeapYear (y : Nat) : Bool :=
  (y % 4 == 0 && y % 100 != 0) || y % 400 == 0

/-- Number of days of month `m` in year `y`. -/
def daysInMonth (y m : Nat) : Nat :=
  if m = 2 then (if isLeapYear y then 29 else 28)
  else if m = 4 ∨ m = 6 ∨ m = 9 ∨ m = 11 then 30
  else 31

/-- `datetime.date` accepts years 1..9999 and day-of-month within range. -/
def Date.valid (d : Date) : Bool :=
  1 ≤ d.year && d.year ≤ 9999 && 1 ≤ d.month && d.month ≤ 12 &&
  1 ≤ d.day && d.day ≤ daysInMonth d.year d.month

/-- Lexicographic date comparison (Python date `<=`). -/
def Date.leb (a b : Date) : Bool :=
  a.year < b.year ||
    (a.year == b.year && (a.month < b.month ||
      (a.month == b.month && a.day ≤ b.day)))

/-- Lexicographic date comparison (Python date `<`). -/
def Date.ltb (a b : Date) : Bool :=
  a.year < b.year ||
    (a.year == b.year && (a.month < b.month ||
      (a.month == b.month && a.day < b.day)))

/-- `date + relativedelta(months=1)`: advance the month by one, clamping
the day to the last day of the target month. -/
def addOneMonth (d : Date) : Date :=
  let y := if d.month = 12 then d.year + 1 else d.year
  let m := if d.month = 12 then 1 else d.month + 1
  ⟨y, m, min d.day (daysInMonth y m)⟩

/-- `date + relativedelta(years=1)`: advance the year by one, clamping
the day (Feb 29 → Feb 28 in a non-leap target year). -/
def addOneYear (d : Date) : Date :=
  ⟨d.year + 1, d.month, min d.day (daysInMonth (d.year + 1) d.month)⟩

/-- Successor day in the calendar. -/
def nextDay (d : Date) : Date :=
  if d.day < daysInMonth d.year d.month then ⟨d.year, d.month, d.day + 1⟩
  else if d.month < 12 then ⟨d.year, d.month + 1, 1⟩
  else ⟨d.year + 1, 1, 1⟩

/-- `date + timedelta(days=n)` for a non-negative day count. -/
def addDays (d : Date) : Nat → Date
  | 0 => d
  | n + 1 => nextDay (addDays d n)

/-- Numeric value of a decimal digit character, `none` for non-digits. -/
def digitVal (c : Char) : Option Nat :=
  if '0' ≤ c ∧ c ≤ '9' then some (c.toNat - '0'.toNat) else none

/-- Parse a string of the exact shape `YYYY-MM-DD` (the shape enforced by
the regex in `validate_date_format`, date_utils.py) into a calendar-valid
`Date`; `none` when the shape or the date is invalid.  This is the
composition of the regex check with `datetime.fromisoformat`. -/
def parseISODate (s : String) : Option Date :=
  match s.toList with
  | [y1, y2, y3, y4, h1, m1, m2, h2, d1, d2] =>
    if h1 = '-' ∧ h2 = '-' then
      match digitVal y1, digitVal y2, digitVal y3, digitVal y4,
            digitVal m1, digitVal m2, digitVal d1, digitVal d2 with
      | some a, some b, some c, some e, some f, some g, some h, some i =>
        let d : Date := ⟨((a * 10 + b) * 10 + c) * 10 + e, f * 10 + g, h * 10 + i⟩
        if d.valid then some d else none
      | _, _, _, _, _, _, _, _ => none
    else none
  | _ => none

/-- Left-pad the decimal representation of `n` to two digits. -/
def pad2 (n : Nat) : String :=
  if n < 10 then "0" ++ toString n else toString n

/-- Left-pad the decimal representation of `n` to four digits. -/
def pad4 (n : Nat) : String :=
  if n < 10 then "000" ++ toString n
  else if n < 100 then "00" ++ toString n
  else if n < 1000 then "0" ++ toString n
  else toString n

/-- `date.isoformat()`: render as `YYYY-MM-DD`. -/
def Date.toISO (d : Date) : String :=
  pad4 d.year ++ "-" ++ pad2 d.month ++ "-" ++ pad2 d.day

/-- Python `str.lower` (ASCII), via the character list so that it
evaluates; Lean `String.toLower` performs the same mapping. -/
def strLower (s : String) : String :=
  String.mk (s.toList.map Char.toLower)

/-- Python `str.upper` (ASCII), via the character list. -/
def strUpper (s : String) : String :=
  String.mk (s.toList.map Char.toUpper)

/-- ASCII whitespace recognised by `str.strip`. -/
def isSpaceChar (c : Char) : Bool :=
  c = ' ' || c = '\t' || c = '\n' || c = '\r'

/-- Python `str.strip`: drop whitespace from both ends. -/
def strTrim (s : String) : String :=
  String.mk (((s.toList.dropWhile isSpaceChar).reverse.dropWhile isSpaceChar).reverse)

/-! ## date_utils.py -/

/-- `date_utils.validate_date_format`: the `^\d4-\d2-\d2$` regex check
followed by `datetime.fromisoformat`. -/
def validate_date_format (s : String) : Bool :=
  (parseISODate s).isSome

/-- `date_utils.parse_date` restricted to ISO `YYYY-MM-DD` inputs (the
only shape the program feeds it after `validate_date_format`); raises
`ValueError` on anything it cannot parse. -/
def parse_date (s : String) : Except String Date :=
  match parseISODate s with
  | some d => .ok d
  | none => .error "Invalid date format. Use YYYY-MM-DD format."

/-- `date_utils.calculate_next_renewal`: one month ahead for `monthly`,
one year ahead for `yearly`, and `ValueError` for every other billing
cycle string (in particular `quarterly`, `biannual` and `annual`). -/
def calculate_next_renewal (start_date : Date) (billing_cycle : String) :
    Except String Date :=
  if strLower billing_cycle = "monthly" then .ok (addOneMonth start_date)
  else if strLower billing_cycle = "yearly" then .ok (addOneYear start_date)
  else .error "Invalid billing cycle. Use monthly or yearly."

/-! ## models/subscription.py -/

/-- `Subscription.VALID_BILLING_CYCLES` (subscription.py line 17). -/
def VALID_BILLING_CYCLES : List String := ["monthly", "quarterly", "biannual", "annual"]

/-- `Subscription.VALID_STATUSES` (subscription.py line 18). -/
def VALID_STATUSES : List String := ["active", "trial", "expiring", "cancelled"]

/-- In-memory subscription record, the state `Subscription.__init__` builds.
Timestamps are threaded as an explicit `current_time` string. -/
structure Subscription where
  name : String
  cost : Rat
  billing_cycle : String
  currency : String
  start_date : String
  renewal_date : String
  payment_method : Option String
  notes : Option String
  status : String
  trial_end_date : Option String
  parent_subscription_id : Option Nat
  tags : List String
  created_at : String
  updated_at : String
deriving DecidableEq, Repr

/-- `Subscription.__init__` with its validating setters, in source order:
name, `set_cost` (negative check, then the `cost` property setter whose
`<= 0` raise is re-wrapped by its own `except ValueError`),
`set_billing_cycle` (lowercased, membership in `VALID_BILLING_CYCLES`),
currency (unchecked), `set_start_date` (format only), then either
`set_renewal_date` (format only) for a supplied renewal date or
`calculate_renewal_date` (parse start, `calculate_next_renewal`,
`isoformat`) when it is omitted, and finally the `status` setter. -/
def Subscription.init (name : String) (cost : Rat) (billing_cycle : String)
    (currency : String) (start_date : String) (renewal_date : Option String)
    (payment_method : String) (notes : Option String) (status : String)
    (trial_end_date : Option String) (parent_subscription_id : Option Nat)
    (tags : List String) (current_time : String) : Except String Subscription := do
  if name = "" then throw "Subscription name cannot be empty"
  if cost < 0 then throw "Cost cannot be negative"
  if cost ≤ 0 then throw "Cost must be a valid number"
  if (VALID_BILLING_CYCLES.contains (strLower billing_cycle)) = false then
    throw "Invalid billing cycle. Valid options are: monthly, quarterly, biannual, annual"
  if validate_date_format start_date = false then
    throw "Invalid start date format. Use YYYY-MM-DD format."
  let renewal ← match renewal_date with
    | some r =>
      if validate_date_format r then pure r
      else throw "Invalid renewal date format. Use YYYY-MM-DD format."
    | none => do
      let d ← parse_date start_date
      let nd ← calculate_next_renewal d (strLower billing_cycle)
      pure nd.toISO
  if (VALID_STATUSES.contains status) = false then
    throw "Status must be one of: active, trial, expiring, cancelled"
  pure { name := name, cost := cost, billing_cycle := strLower billing_cycle,
         currency := currency, start_date := start_date, renewal_date := renewal,
         payment_method := if payment_method = "" then none else some payment_method,
         notes := notes, status := status, trial_end_date := trial_end_date,
         parent_subscription_id := parent_subscription_id, tags := tags,
         created_at := current_time, updated_at := current_time }

/-- The multiplier table of the `annual_cost` property
(subscription.py lines 153-162); `multipliers.get(cycle, 0)`. -/
def annualMultiplier (cycle : String) : Rat :=
  if cycle = "monthly" then 12
  else if cycle = "quarterly" then 4
  else if cycle = "biannual" then 2
  else if cycle = "annual" then 1
  else 0

/-- `Subscription.annual_cost` property: `cost * multipliers.get(cycle, 0)`. -/
def Subscription.annual_cost (s : Subscription) : Rat :=
  s.cost * annualMultiplier s.billing_cycle

/-- `Subscription.calculate_annual_cost` (subscription.py lines 248-257):
`cost * 12` for `monthly`, otherwise the raw `cost`. -/
def Subscription.calculate_annual_cost (s : Subscription) : Rat :=
  if s.billing_cycle = "monthly" then s.cost * 12 else s.cost

/-- `Subscription.tags_string` property: comma-joined tags. -/
def Subscription.tags_string (s : Subscription) : String :=
  String.intercalate "," s.tags

/-! ## A fragment of Python dynamic semantics

Just enough to express the difference between a `Subscription` object and
the plain `dict` produced by `Subscription.to_dict`: attribute lookup on a
dict finds no data keys and raises `AttributeError`. -/

/-- Python value stored in a dict entry or a table column. -/
inductive PyVal where
  | str (s : String)
  | num (q : Rat)
  | noneV
deriving DecidableEq, Repr

/-- The Python exceptions the embedded commands can raise. -/
inductive PyExc where
  | valueError (msg : String)
  | attributeError (msg : String)
  | typeError (msg : String)
deriving DecidableEq, Repr

def optStrVal : Option String → PyVal
  | some s => .str s
  | none => .noneV

def optNatVal : Option Nat → PyVal
  | some n => .num n
  | none => .noneV

/-- `Subscription.to_dict` (subscription.py lines 268-290): the keyed
dictionary handed to the persistence layer. -/
def Subscription.to_dict (s : Subscription) : List (String × PyVal) :=
  [("name", .str s.name), ("cost", .num s.cost),
   ("billing_cycle", .str s.billing_cycle), ("currency", .str s.currency),
   ("start_date", .str s.start_date), ("renewal_date", .str s.renewal_date),
   ("payment_method", optStrVal s.payment_method), ("notes", optStrVal s.notes),
   ("status", .str s.status), ("created_at", .str s.created_at),
   ("updated_at", .str s.updated_at),
   ("trial_end_date", optStrVal s.trial_end_date),
   ("parent_subscription_id", optNatVal s.parent_subscription_id),
   ("tags", .str s.tags_string)]

/-- Either a `Subscription` instance or a plain dict: the two shapes that
flow into `DatabaseManager.add_subscription` call sites. -/
inductive PyObject where
  | subObj (s : Subscription)
  | dictObj (d : List (String × PyVal))
deriving DecidableEq, Repr

/-- Data attributes a `Subscription` instance exposes (properties and
plain fields used by the database layer). -/
def Subscription.getattrData (s : Subscription) (a : String) : Option PyVal :=
  if a = "name" then some (.str s.name)
  else if a = "cost" then some (.num s.cost)
  else if a = "billing_cycle" then some (.str s.billing_cycle)
  else if a = "currency" then some (.str s.currency)
  else if a = "start_date" then some (.str s.start_date)
  else if a = "renewal_date" then some (.str s.renewal_date)
  else if a = "payment_method" then some (optStrVal s.payment_method)
  else if a = "status" then some (.str s.status)
  else if a = "tags_string" then some (.str s.tags_string)
  else none

/-- Python attribute lookup for the two object shapes.  A plain `dict`
stores its data under keys, not attributes, so looking up any of the
subscription field names on it raises `AttributeError`. -/
def PyObject.getattr : PyObject → String → Except PyExc PyVal
  | .subObj s, a =>
    match s.getattrData a with
    | some v => .ok v
    | none => .error (.attributeError a)
  | .dictObj _, a => .error (.attributeError a)

/-! ## database/manager.py -/

/-- One row of the `subscriptions` table, with the columns the commands
read through `sqlite3.Row` dict conversions. -/
structure Row where
  id : Nat
  name : String
  cost : Rat
  billing_cycle : String
  currency : String
  start_date : String
  renewal_date : String
  payment_method : String
  status : String
  tags : String
  notes : Option String
  trial_end_date : Option String
  parent_subscription_id : Option Nat
  created_at : String
  updated_at : String
deriving DecidableEq, Repr

/-- Coercion a bound SQL parameter undergoes when stored into a TEXT
column (only exercised on the unreachable object-argument path of
`add_subscription`). -/
def PyVal.asString : PyVal → String
  | .str s => s
  | .num q => toString q
  | .noneV => ""

/-- Numeric view of a bound SQL parameter. -/
def PyVal.asNum : PyVal → Rat
  | .num q => q
  | _ => 0

/-- `DatabaseManager.add_subscription` (manager.py lines 50-74).  The
parameter is read through *attribute* access (`subscription.name`,
`subscription.cost`, ..., `subscription.tags_string`), so a dict argument
raises `AttributeError` at the first access; an object argument binds the
nine columns and inserts a row whose id is `lastrowid`. -/
def DatabaseManager.add_subscription (db : List Row) (subscription : PyObject)
    (current_time : String) : Except PyExc (List Row × Nat) := do
  let n ← subscription.getattr "name"
  let c ← subscription.getattr "cost"
  let bc ← subscription.getattr "billing_cycle"
  let cur ← subscription.getattr "currency"
  let sd ← subscription.getattr "start_date"
  let rd ← subscription.getattr "renewal_date"
  let pm ← subscription.getattr "payment_method"
  let st ← subscription.getattr "status"
  let tg ← subscription.getattr "tags_string"
  let newId := db.length + 1
  let row : Row :=
    { id := newId, name := n.asString, cost := c.asNum,
      billing_cycle := bc.asString, currency := cur.asString,
      start_date := sd.asString, renewal_date := rd.asString,
      payment_method := pm.asString, status := st.asString,
      tags := tg.asString, notes := none, trial_end_date := none,
      parent_subscription_id := none,
      created_at := current_time, updated_at := current_time }
  pure (db ++ [row], newId)

/-- The names of the methods class `DatabaseManager` actually defines
(manager.py).  Neither `get_subscriptions` nor `delete_subscription_by_id`
— the two methods delete.py calls — is among them. -/
def DatabaseManager.methodNames : List String :=
  ["get_connection", "connect", "close", "add_subscription",
   "get_all_subscriptions", "get_filtered_subscriptions",
   "get_distinct_values", "get_all_tags", "get_subscription_by_id",
   "update_subscription", "delete_subscription", "get_subscription_by_name",
   "update_subscription_status", "get_tag_usage",
   "get_payment_method_usage", "set_budget", "get_budgets",
   "get_subscription_costs_by_budget_period"]

/-- Attribute lookup `getattr(db_manager, name)`: `AttributeError` exactly
when the class defines no such method. -/
def DatabaseManager.resolveMethod (nm : String) : Except PyExc String :=
  if DatabaseManager.methodNames.contains nm then .ok nm
  else .error (.attributeError nm)

/-! ## commands/add.py -/

/-- `AddCommand.SUPPORTED_CURRENCIES`. -/
def SUPPORTED_CURRENCIES : List String :=
  ["USD", "EUR", "GBP", "JPY", "CAD", "AUD", "CHF", "INR", "CNY", "HKD"]

/-- Outcome of Python `float()` on the raw `--cost` string: either the
parsed number or a `ValueError`. -/
inductive FloatParse where
  | val (q : Rat)
  | invalid
deriving DecidableEq, Repr

/-- Python truthiness of an optional string (`None` and `""` are falsy). -/
def strOptTruthy : Option String → Bool
  | some s => s ≠ ""
  | none => false

/-- Python truthiness of an optional number (`None` and `0` are falsy). -/
def ratOptTruthy : Option Rat → Bool
  | some q => q ≠ 0
  | none => false

/-- Parsed command-line arguments of `add` (argparse result). -/
structure AddArgs where
  name : String
  cost : FloatParse
  billing_cycle : String
  currency : String
  start_date : String
  renewal_date : Option String
  payment_method : String
  notes : Option String
  trial_end_date : Option String
  linked_to : Option String
  status : String
  help_status : Bool
  tags : Option (List String)
deriving DecidableEq, Repr

/-- `AddCommand._validate_cost`: `float()` then positivity; the `<= 0`
raise happens inside the same `try`, so both failures surface as the one
uniform message. -/
def AddCommand.validate_cost (cost : FloatParse) : Except String Rat :=
  match cost with
  | .val q =>
    if q ≤ 0 then .error "Invalid cost. Cost must be a positive number."
    else .ok q
  | .invalid => .error "Invalid cost. Cost must be a positive number."

/-- `AddCommand._validate_currency`: membership of the uppercased code in
`SUPPORTED_CURRENCIES`, returning the uppercased code. -/
def AddCommand.validate_currency (currency : String) : Except String String :=
  if SUPPORTED_CURRENCIES.contains (strUpper currency) then .ok (strUpper currency)
  else .error "Unsupported currency."

/-- `AddCommand._validate_dates` (add.py lines 155-213): start date format;
then, for a truthy renewal date, format and the `renewal >= start` order
check; then, for a truthy trial end date, format and `trial_end >= start`
(the trial-after-renewal case is only a printed warning, not an error). -/
def AddCommand.validate_dates (start_date : String) (renewal_date : Option String)
    (trial_end_date : Option String) :
    Except String (String × Option String × Option String) := do
  if validate_date_format start_date = false then
    throw "Invalid start date format. Use YYYY-MM-DD format."
  let sd ← parse_date start_date
  match renewal_date with
  | some r =>
    if r = "" then pure () else do
      if validate_date_format r = false then
        throw "Invalid renewal date format. Use YYYY-MM-DD format."
      let rd ← parse_date r
      if rd.ltb sd then
        throw "Renewal date cannot be earlier than start date."
  | none => pure ()
  match trial_end_date with
  | some t =>
    if t = "" then pure () else do
      if validate_date_format t = false then
        throw "Invalid trial end date format. Use YYYY-MM-DD format."
      let td ← parse_date t
      if td.ltb sd then
        throw "Trial end date cannot be earlier than start date."
  | none => pure ()
  pure (start_date, renewal_date, trial_end_date)

/-- `AddCommand._validate_notes`: trim, empty becomes `None`. -/
def AddCommand.validate_notes (notes : Option String) : Option String :=
  match notes with
  | none => none
  | some n => if strTrim n = "" then none else some (strTrim n)

/-- `AddCommand._find_parent_subscription` (add.py lines 237-259): iterates
`db_manager.get_all_subscriptions()`, which returns `Subscription`
*objects* (manager.py line 138), and subscripts each as `sub["name"]`;
`Subscription` defines no `__getitem__`, so the first iteration of a
nonempty result raises `TypeError`, and an empty result returns `None`. -/
def AddCommand.find_parent (db : List Row) (_parent_name : String) :
    Except PyExc (Option Row) :=
  match db with
  | [] => .ok none
  | _ :: _ => .error (.typeError "Subscription object is not subscriptable")

/-- Result of running a command handler to completion: exit code, printed
lines, resulting subscriptions table. -/
structure CmdResult where
  exit : Int
  output : List String
  db : List Row
deriving DecidableEq, Repr

/-- The generic catch-all message of add.py line 377. -/
def genericErrorMsg : String := "An unexpected error occurred"

def liftVE (e : Except String α) : Except PyExc α :=
  match e with
  | .ok a => .ok a
  | .error m => .error (.valueError m)

/-- The stage of the `try` block of `AddCommand.execute` that precedes the
persistence call: one of the two early `return` points of the source, or a
validated `Subscription` object headed for the database. -/
inductive BuildOutcome where
  | helpStatus
  | invalidStatus
  | built (s : Subscription)
deriving DecidableEq, Repr

/-- Validations, parent lookup and `Subscription` construction of
`AddCommand.execute` (add.py lines 272-327), up to but excluding the
persistence call. -/
def AddCommand.buildStage (args : AddArgs) (db : List Row) (current_time : String) :
    Except PyExc BuildOutcome := do
  if args.help_status then
    return .helpStatus
  let cost ← liftVE (AddCommand.validate_cost args.cost)
  let currency ← liftVE (AddCommand.validate_currency args.currency)
  let _dates ← liftVE (AddCommand.validate_dates args.start_date
    args.renewal_date args.trial_end_date)
  let notes := AddCommand.validate_notes args.notes
  if (VALID_STATUSES.contains args.status) = false then
    return .invalidStatus
  if strTrim args.name = "" then throw (.valueError "Name cannot be empty")
  let parent_subscription_id ←
    if strOptTruthy args.linked_to then do
      match ← AddCommand.find_parent db ((args.linked_to).getD "") with
      | some row => pure (some row.id)
      | none => throw (.valueError "Parent subscription not found")
    else pure none
  let renewal := if strOptTruthy args.renewal_date then args.renewal_date else none
  let subscription ← liftVE (Subscription.init (strTrim args.name) cost
    args.billing_cycle currency args.start_date renewal
    (if args.payment_method = "" then "" else strTrim args.payment_method)
    notes args.status args.trial_end_date parent_subscription_id
    ((args.tags).getD []) current_time)
  pure (.built subscription)

/-- The body of the `try` block of `AddCommand.execute` (add.py lines
271-367): the build stage — whose two early `return`s (help text with exit
0, invalid status with exit 1) leave the table untouched — then
persistence via `db_manager.add_subscription(subscription.to_dict())`;
note the argument is the *dict* produced by `to_dict`, not the object. -/
def AddCommand.tryBody (args : AddArgs) (db : List Row) (current_time : String) :
    Except PyExc CmdResult := do
  match ← AddCommand.buildStage args db current_time with
  | .helpStatus => pure { exit := 0, output := ["Valid statuses: ..."], db := db }
  | .invalidStatus =>
    pure { exit := 1, output := ["Error: not a valid status."], db := db }
  | .built subscription =>
    let r ← DatabaseManager.add_subscription db (.dictObj subscription.to_dict)
      current_time
    pure { exit := 0, output := ["Subscription added successfully."], db := r.fst }

/-- `AddCommand.execute`: the `try` body with its two handlers —
`ValueError` prints `Error: ...`, anything else the generic message; both
return exit code 1 (add.py lines 371-378). -/
def AddCommand.execute (args : AddArgs) (db : List Row) (current_time : String) :
    CmdResult :=
  match AddCommand.tryBody args db current_time with
  | .ok r => r
  | .error (.valueError m) => { exit := 1, output := ["Error: " ++ m], db := db }
  | .error (.attributeError m) =>
    { exit := 1, output := [genericErrorMsg ++ ": " ++ m], db := db }
  | .error (.typeError m) =>
    { exit := 1, output := [genericErrorMsg ++ ": " ++ m], db := db }

/-! ## commands/delete.py -/

/-- Parsed command-line arguments of `delete`. -/
structure DeleteArgs where
  name : Option String
  id : Option Nat
  dry_run : Bool
  force : Bool
  confirm : Bool
deriving DecidableEq, Repr

/-- Outcome of a handler whose exceptions `cli.main` does not catch (cli.py
lines 76-77 call `command.execute(args)` bare): either a normal return or
an uncaught exception that terminates the interpreter. -/
inductive ExecOutcome where
  | returned (code : Int) (output : List String) (db : List Row)
  | raised (exc : PyExc) (db : List Row)
deriving DecidableEq, Repr

/-- The call `db_manager.get_subscriptions(...)` (delete.py lines 69, 86
and 196): attribute resolution on `DatabaseManager` first; the class
defines no such method (see `DatabaseManager.methodNames`), so the call
raises `AttributeError` before any rows are read.  The `pure db` after the
bind is unreachable. -/
def DeleteCommand.getSubscriptionsCall (db : List Row) : Except PyExc (List Row) := do
  let _ ← DatabaseManager.resolveMethod "get_subscriptions"
  pure db

/-- The call `db_manager.delete_subscription_by_id(id)` (delete.py line
238): also a method `DatabaseManager` does not define, hence
`AttributeError`; the deletion after the bind is unreachable. -/
def DeleteCommand.deleteByIdCall (db : List Row) (i : Nat) :
    Except PyExc (List Row × Bool) := do
  let _ ← DatabaseManager.resolveMethod "delete_subscription_by_id"
  pure (db.filter (fun r => r.id ≠ i), db.any (fun r => r.id = i))

/-- `DeleteCommand.execute` control flow (delete.py lines 160-261) as an
`Except` computation; only the final delete call sits inside a
`try`/`except` in the source, so only its exceptions are converted to a
printed error, while the earlier `get_subscriptions` lookups propagate. -/
def DeleteCommand.run (args : DeleteArgs) (db : List Row) :
    Except PyExc (Int × List String × List Row) := do
  if args.name.isSome && args.id.isSome then
    return (1, ["Please provide either --name or --id, not both."], db)
  if args.name.isNone && args.id.isNone then
    return (1, ["You must provide either --name or --id to delete a subscription."], db)
  if args.dry_run && args.force then
    return (1, ["Cannot use --dry-run and --force together."], db)
  let rows ← DeleteCommand.getSubscriptionsCall db
  let found : List Row := match args.name with
    | some n => rows.filter (fun r => strLower r.name = strLower n)
    | none => rows.filter (fun r => some r.id = args.id)
  if args.name.isSome && found.length > 1 then
    return (1, ["Multiple subscriptions found. Use --id to delete the exact subscription."], db)
  match found with
  | [] =>
    return (1, ["No subscription found. Tip: Use the view command."], db)
  | subscription :: _ => do
    let allSubs ← DeleteCommand.getSubscriptionsCall db
    let child_subscriptions :=
      allSubs.filter (fun r => r.parent_subscription_id = some subscription.id)
    if child_subscriptions.isEmpty = false then
      return (1, ["Cannot delete because it has linked child subscriptions:"]
        ++ child_subscriptions.map Row.name, db)
    if args.dry_run then
      return (0, ["Dry Run: The following subscription would be deleted:"], db)
    if args.confirm = false && args.force = false then
      return (1, ["Deletion not confirmed. Use --confirm to permanently delete the subscription."], db)
    match DeleteCommand.deleteByIdCall db subscription.id with
    | .ok (db2, true) => return (0, ["Subscription deleted."], db2)
    | .ok (_, false) => return (1, ["Failed to delete subscription."], db)
    | .error _ => return (1, ["Error deleting subscription."], db)

/-- `DeleteCommand.execute` at the process boundary: an uncaught exception
escapes through `cli.main` (which installs no handler) and terminates the
interpreter with a traceback. -/
def DeleteCommand.execute (args : DeleteArgs) (db : List Row) : ExecOutcome :=
  match DeleteCommand.run args db with
  | .ok (c, out, db2) => .returned c out db2
  | .error e => .raised e db

/-- Exit code of the process for an outcome: a normal return is passed to
`sys.exit`; an unhandled exception makes the interpreter exit with 1. -/
def processExitCode : ExecOutcome → Int
  | .returned c _ _ => c
  | .raised _ _ => 1

/-! ## commands/budget.py -/

/-- One row of the `budgets` table.  The `--set` path can store a `None`
currency (see C5), hence the `Option`. -/
structure Budget where
  year : Int
  month : Int
  currency : Option String
  amount : Rat
deriving DecidableEq, Repr

/-- `BudgetCommand.EXCHANGE_RATES` (budget.py lines 17-25): units of USD
per one unit of the currency. -/
def BudgetCommand.EXCHANGE_RATES : List (String × Rat) :=
  [("USD", 1), ("EUR", 1.1), ("INR", 0.012), ("GBP", 1.28),
   ("CAD", 0.74), ("AUD", 0.67), ("JPY", 0.0071)]

/-- Dictionary lookup in a rate table. -/
def rateLookup (rates : List (String × Rat)) (c : String) : Option Rat :=
  (rates.find? (fun p => p.fst = c)).map Prod.snd

/-- Dictionary assignment `m[k] = v` on an insertion-ordered table. -/
def setKey (m : List (String × Rat)) (k : String) (v : Rat) : List (String × Rat) :=
  match m with
  | [] => [(k, v)]
  | p :: rest => if p.fst = k then (k, v) :: rest else p :: setKey rest k v

/-- `effective_rates`: the class table updated by the validated overrides
(budget.py lines 207-211). -/
def effectiveRates (overrides : List (String × Rat)) : List (String × Rat) :=
  overrides.foldl (fun m p => setKey m p.fst p.snd) BudgetCommand.EXCHANGE_RATES

/-- Parsed command-line arguments of `budget`.  A `--set-rate` entry is
modelled after the `CURRENCY=RATE` split: currency text plus `float()`
outcome.  `rate_overrides` is the attribute `validate_args` injects; it is
`none` while unset. -/
structure BudgetArgs where
  set : Option Rat
  view : Bool
  currency : Option String
  year : Option Int
  month : Option Int
  detailed : Bool
  show_rates : Bool
  base_currency : Option String
  set_rate : Option (List (String × FloatParse))
  tag : Option String
  payment_method : Option String
  rate_overrides : Option (List (String × Rat))
deriving DecidableEq, Repr

/-- The `--set-rate` loop of `validate_args` (budget.py lines 83-121):
each currency must be a key of the class rate table and each rate a
positive number. -/
def BudgetCommand.parseRateOverrides :
    List (String × FloatParse) → Except String (List (String × Rat))
  | [] => .ok []
  | (code, fp) :: rest =>
    let cc := strUpper (strTrim code)
    if ((BudgetCommand.EXCHANGE_RATES.map Prod.fst).contains cc) = false then
      .error "Error: Unsupported currency override."
    else match fp with
      | .invalid => .error "Error: Invalid exchange rate. Rate must be a valid number."
      | .val r =>
        if r ≤ 0 then .error "Error: Exchange rate must be a positive number."
        else do
          let tail ← BudgetCommand.parseRateOverrides rest
          pure ((cc, r) :: tail)

/-- `BudgetCommand.validate_args` (budget.py lines 49-126): ok flag, error
message and the (possibly updated) args.  `rate_overrides` is attached
only when control reaches the end; every early `False` return leaves it
unset. -/
def BudgetCommand.validate_args (args : BudgetArgs) (today : Date) :
    Bool × String × BudgetArgs :=
  if args.month.any (fun m => m < 1 ∨ 12 < m) then
    (false, "Error: Month must be between 1 and 12.", args)
  else if args.year.any (fun y => y < 2000 ∨ (today.year : Int) + 10 < y) then
    (false, "Error: Year seems invalid.", args)
  else if ratOptTruthy args.set ∧ (args.set.getD 0) ≤ 0 then
    (false, "Budget amount must be positive", args)
  else if ratOptTruthy args.set ∧ strOptTruthy args.currency = false then
    (false, "Currency must be specified when setting a budget", args)
  else if strOptTruthy args.base_currency ∧
      (["USD", "EUR", "INR"].contains (strUpper (args.base_currency.getD ""))) = false then
    (false, "Error: Unsupported base currency.", args)
  else
    let args1 :=
      if strOptTruthy args.base_currency then
        { args with base_currency := some (strUpper (args.base_currency.getD "")) }
      else args
    match args1.set_rate with
    | some entries =>
      if entries.isEmpty then (true, "", { args1 with rate_overrides := some [] })
      else
        match BudgetCommand.parseRateOverrides entries with
        | .ok ov => (true, "", { args1 with rate_overrides := some ov })
        | .error m => (false, m, args1)
    | none => (true, "", { args1 with rate_overrides := some [] })

/-- `DatabaseManager.set_budget` (manager.py lines 319-351): positivity
check, then update of the existing (year, month, currency) row or insert
of a new one; the `Bool` is `True` for a new budget. -/
def DatabaseManager.set_budget (db : List Budget) (year month : Int)
    (currency : Option String) (amount : Rat) :
    Except String (List Budget × Bool) :=
  if amount ≤ 0 then .error "Budget amount must be positive"
  else if db.any (fun b => b.year = year ∧ b.month = month ∧ b.currency = currency) then
    .ok (db.map (fun b =>
      if b.year = year ∧ b.month = month ∧ b.currency = currency then
        { b with amount := amount } else b), false)
  else .ok (db ++ [{ year := year, month := month, currency := currency,
                     amount := amount }], true)

/-- `BudgetCommand.set_budget` (budget.py lines 164-175): the manager call
with its `except ValueError` handler that only *prints* the error. -/
def BudgetCommand.set_budget (db : List Budget) (year month : Int)
    (currency : Option String) (amount : Rat) : List String × List Budget :=
  match DatabaseManager.set_budget db year month currency amount with
  | .ok (db2, true) => (["Budget set."], db2)
  | .ok (db2, false) => (["Budget updated."], db2)
  | .error e => (["Error: " ++ e], db)

/-- `BudgetCommand.view_budgets` (budget.py lines 177-603): a read-only
report over `get_budgets` and `get_subscription_costs_by_budget_period`;
the table formatting is not modelled, only that it writes nothing. -/
def BudgetCommand.view_budgets (db : List Budget) : List String :=
  if db.isEmpty then ["No budgets found."] else ["budget table"]

/-- Outcome of `BudgetCommand.execute`, which returns `None` on every
normal path (`sys.exit(None)` then exits 0). -/
inductive BudgetOutcome where
  | finished (output : List String) (db : List Budget)
  | raised (exc : PyExc) (db : List Budget)
deriving DecidableEq, Repr

/-- `BudgetCommand.execute` (budget.py lines 128-162): calls
`validate_args` but *discards its result* (line 131), then dispatches on
the truthiness of `args.set`.  The view branch reads `args.rate_overrides`
(line 159), an attribute that exists only if `validate_args` ran to
completion, so an early validation failure followed by `--view` raises
`AttributeError`. -/
def BudgetCommand.execute (args : BudgetArgs) (db : List Budget) (today : Date) :
    BudgetOutcome :=
  let v := BudgetCommand.validate_args args today
  let args2 := v.snd.snd
  let year := args2.year.getD today.year
  let month := args2.month.getD today.month
  if ratOptTruthy args2.set then
    let r := BudgetCommand.set_budget db year month args2.currency (args2.set.getD 0)
    .finished r.fst r.snd
  else if args2.view then
    match args2.rate_overrides with
    | none => .raised (.attributeError "rate_overrides") db
    | some _ => .finished (BudgetCommand.view_budgets db) db
  else .finished [] db

/-- Process exit code for a budget invocation: `execute` returns `None`,
and `sys.exit(None)` is a success exit; an uncaught exception exits 1. -/
def budgetExitCode : BudgetOutcome → Int
  | .finished _ _ => 0
  | .raised _ _ => 1

/-- Python `round` to the nearest integer, ties to even (banker's
rounding), on exact rationals. -/
def roundHalfEven (q : Rat) : Int :=
  let f := ⌊q⌋
  if q - f < 1/2 then f
  else if 1/2 < q - f then f + 1
  else if f % 2 = 0 then f else f + 1

/-- Python `round(x, 2)`. -/
def round2 (q : Rat) : Rat := (roundHalfEven (q * 100) : Rat) / 100

/-- `BudgetCommand._convert_currency` (budget.py lines 614-652): identity
when source and target coincide (before any table lookup); otherwise
multiply into USD by the source rate, divide by the target rate unless the
target is USD, and round the result to two decimals. -/
def BudgetCommand.convert_currency (rates : List (String × Rat)) (amount : Rat)
    (from_currency to_currency : String) : Except String Rat :=
  if from_currency = to_currency then .ok amount
  else
    match rateLookup rates from_currency, rateLookup rates to_currency with
    | none, _ => .error "Unsupported currency."
    | some _, none => .error "Unsupported currency."
    | some rf, some rt =>
      let amount_in_usd := amount * rf
      if to_currency = "USD" then .ok (round2 amount_in_usd)
      else .ok (round2 (amount_in_usd / rt))

/-! ## commands/view.py -/

/-- `ViewCommand.EXCHANGE_RATES` (view.py lines 47-59): units of the
currency per one USD — the inverse convention of the budget table. -/
def ViewCommand.EXCHANGE_RATES : List (String × Rat) :=
  [("USD", 1), ("EUR", 0.85), ("GBP", 0.74), ("JPY", 113.5), ("CAD", 1.25),
   ("AUD", 1.35), ("CHF", 0.92), ("INR", 74.5), ("CNY", 6.39), ("HKD", 7.78)]

/-- `ViewCommand._convert_currency` (view.py lines 258-285): identity when
the currencies coincide or the target is falsy; otherwise divide by the
source rate into USD and multiply by the target rate, with no rounding. -/
def ViewCommand.convert_currency (amount : Rat) (from_currency to_currency : String) :
    Except String Rat :=
  if from_currency = to_currency ∨ to_currency = "" then .ok amount
  else
    match rateLookup ViewCommand.EXCHANGE_RATES from_currency,
          rateLookup ViewCommand.EXCHANGE_RATES to_currency with
    | none, _ => .error "Unsupported source currency."
    | some _, none => .error "Unsupported target currency."
    | some rf, some rt => .ok (amount / rf * rt)

/-- Contribution of one subscription to the monthly total of
`ViewCommand._display_summary` (view.py lines 847-881): only the
`monthly` and `yearly` cycle strings are handled; every other cycle
contributes nothing. -/
def ViewCommand.monthlyContribution (cost : Rat) (cycle : String) : Rat :=
  if cycle = "monthly" then cost
  else if cycle = "yearly" then cost / 12
  else 0

/-- Contribution of one subscription to the yearly total of
`ViewCommand._display_summary`. -/
def ViewCommand.yearlyContribution (cost : Rat) (cycle : String) : Rat :=
  if cycle = "monthly" then cost * 12
  else if cycle = "yearly" then cost
  else 0

/-! ## commands/summary.py -/

/-- The filter dictionary consumed by
`DatabaseManager.get_filtered_subscriptions`. -/
structure Filters where
  status : Option (List String)
  tag : Option (List String)
  payment_methods : Option (List String)
deriving DecidableEq, Repr

/-- Substring containment, the semantics of SQL `LIKE '%needle%'`. -/
def strContains (hay needle : String) : Bool :=
  let hs := hay.toList
  (List.range (hs.length + 1)).any (fun i => needle.toList.isPrefixOf (hs.drop i))

/-- SQL `WHERE` clause of `get_filtered_subscriptions` (manager.py lines
88-124): status `IN`, tag `LIKE '%t%'` against the comma-joined tag string
(SQLite `LIKE` is case-insensitive on ASCII), payment method `IN`. -/
def rowMatches (f : Filters) (r : Row) : Bool :=
  (match f.status with
   | some ss => ss.contains r.status
   | none => true) &&
  (match f.tag with
   | some ts => ts.any (fun t => strContains (strLower r.tags) (strLower t))
   | none => true) &&
  (match f.payment_methods with
   | some ps => ps.contains r.payment_method
   | none => true)

/-- The tags *setter* applied to a stored comma-joined string: split on
commas and strip each piece; empty string means no tags. -/
def splitTags (s : String) : List String :=
  if s = "" then [] else (s.splitOn ",").map strTrim

/-- `Subscription.from_dict` applied to a table row (manager.py lines
134-138): re-runs the validating constructor on the stored fields (so a
corrupted row raises), then overwrites the timestamps from the row. -/
def Subscription.from_row (r : Row) : Except String Subscription := do
  let s ← Subscription.init r.name r.cost r.billing_cycle r.currency r.start_date
    (if r.renewal_date = "" then none else some r.renewal_date)
    r.payment_method r.notes r.status r.trial_end_date r.parent_subscription_id
    (splitTags r.tags) r.created_at
  pure { s with created_at := r.created_at, updated_at := r.updated_at }

/-- `DatabaseManager.get_filtered_subscriptions`: filtered rows, each
converted through `Subscription.from_dict`, in table order. -/
def DatabaseManager.get_filtered_subscriptions (db : List Row) (f : Filters) :
    Except String (List Subscription) :=
  (db.filter (rowMatches f)).mapM Subscription.from_row

/-- Python truthiness of an optional list (`None` and `[]` are falsy). -/
def listOptTruthy : Option (List α) → Bool
  | some l => l.isEmpty = false
  | none => false

/-- Parsed command-line arguments of `summary`. -/
structure SummaryArgs where
  status : Option (List String)
  payment_methods : Option (List String)
  tags : Option (List String)
  currency : Option String
  by_tag : Bool
  by_payment_method : Bool
  top_tags : Option Nat
  top_payments : Option Nat
  period : String
  include_cancelled : Bool
  expiring_days : Nat
deriving DecidableEq, Repr

/-- The filter dictionary summary builds (summary.py lines 132-144):
explicit statuses win; otherwise cancelled subscriptions are excluded by
default. -/
def SummaryCommand.buildFilters (args : SummaryArgs) : Filters :=
  { status :=
      if listOptTruthy args.status then args.status
      else if args.include_cancelled then none
      else some ["active", "trial", "expiring"],
    tag := if listOptTruthy args.tags then args.tags else none,
    payment_methods :=
      if listOptTruthy args.payment_methods then args.payment_methods else none }

/-- `SummaryCommand._is_date_within_range` (summary.py lines 435-446):
`strptime` the stored string, then inclusive range test; parse failures
count as out of range. -/
def is_date_within_range (date_str : String) (start_date end_date : Date) : Bool :=
  match parseISODate date_str with
  | some d => start_date.leb d && d.leb end_date
  | none => false

/-- An in-memory subscription record after the summary processing loop:
the (possibly currency-rewritten) object plus the injected
`display_status` attribute. -/
structure DisplaySub where
  sub : Subscription
  display_status : String
deriving DecidableEq, Repr

/-- The per-subscription body of the processing loop of
`SummaryCommand.execute` (summary.py lines 164-185): `display_status`
starts as the stored status and becomes `expiring` for an active/trial
subscription whose truthy renewal date lies between today and today plus
the threshold; a requested display currency is then written onto the
in-memory object (1:1, cost unchanged).  The persisted row is never
touched. -/
def SummaryCommand.processSub (args : SummaryArgs) (today : Date)
    (s : Subscription) : DisplaySub :=
  let threshold := addDays today args.expiring_days
  let ds :=
    if (s.status = "active" ∨ s.status = "trial") ∧ s.renewal_date ≠ "" ∧
        is_date_within_range s.renewal_date today threshold then "expiring"
    else s.status
  let s2 :=
    if strOptTruthy args.currency ∧ s.currency ≠ args.currency.getD "" then
      { s with currency := args.currency.getD "" }
    else s
  { sub := s2, display_status := ds }

/-- Result of a summary invocation: exit code, the processed in-memory
records, and the subscriptions table afterwards. -/
structure SummaryResult where
  exit : Int
  processed : List DisplaySub
  db : List Row
deriving DecidableEq, Repr

/-- `SummaryCommand.execute` (summary.py lines 125-215): fetch through the
filters, return 0 early when nothing matches, otherwise run the processing
loop and the report sections.  summary.py calls no write method of the
database manager, so the table passes through unchanged; a conversion
error from a corrupted row is caught by the `except` handlers (exit 1). -/
def SummaryCommand.execute (args : SummaryArgs) (db : List Row) (today : Date) :
    SummaryResult :=
  match DatabaseManager.get_filtered_subscriptions db (SummaryCommand.buildFilters args) with
  | .error _ => { exit := 1, processed := [], db := db }
  | .ok [] => { exit := 0, processed := [], db := db }
  | .ok subs =>
    { exit := 0, processed := subs.map (SummaryCommand.processSub args today), db := db }

/-- Period-dependent cost used by every summary breakdown (summary.py:
`sub.cost if period == "monthly" else sub.annual_cost`). -/
def periodCost (period : String) (s : Subscription) : Rat :=
  if period = "monthly" then s.cost else s.annual_cost

/-- `defaultdict(float)` bucket bump `d[k] += v` on an insertion-ordered
association list. -/
def bumpKey (m : List (String × Rat)) (k : String) (v : Rat) : List (String × Rat) :=
  match m with
  | [] => [(k, v)]
  | p :: rest => if p.fst = k then (p.fst, p.snd + v) :: rest else p :: bumpKey rest k v

/-- Tag bucket accumulation shared by `_display_top_tags` (summary.py
lines 268-282) and `_display_tag_breakdown` (lines 362-384): an untagged
subscription feeds the `Untagged` bucket once; a tagged one feeds every
one of its tag buckets with its full period cost. -/
def tagCosts (period : String) (subs : List Subscription) : List (String × Rat) :=
  subs.foldl (fun m sub =>
    if sub.tags.isEmpty then bumpKey m "Untagged" (periodCost period sub)
    else sub.tags.foldl (fun m2 tag => bumpKey m2 tag (periodCost period sub)) m) []

/-- Payment-method bucket accumulation shared by
`_display_top_payment_methods` (summary.py lines 295-302) and
`_display_payment_method_breakdown` (lines 315-326): exactly one bucket
per subscription, `Unknown` for a falsy payment method. -/
def paymentCosts (period : String) (subs : List Subscription) : List (String × Rat) :=
  subs.foldl (fun m sub =>
    bumpKey m (sub.payment_method.getD "Unknown") (periodCost period sub)) []

/-- Overall total of `_display_overall_summary` (summary.py lines
232-237): the sum of the period costs. -/
def totalSpend (period : String) (subs : List Subscription) : Rat :=
  (subs.map (periodCost period)).sum

/-- One step of Python `sorted(items, key=spend, reverse=True)`: the
element being inserted came *earlier* in the input than everything already
placed, so it goes in front of the first element whose spend is not
strictly greater — exactly the stable descending order `sorted` returns. -/
def insertSpendDesc (x : String × Rat) : List (String × Rat) → List (String × Rat)
  | [] => [x]
  | y :: ys => if x.snd < y.snd then y :: insertSpendDesc x ys else x :: y :: ys

/-- Stable sort by spend, descending. -/
def sortSpendDesc : List (String × Rat) → List (String × Rat)
  | [] => []
  | x :: xs => insertSpendDesc x (sortSpendDesc xs)

/-- `sorted(buckets.items(), key=value, reverse=True)[:count]` — the
top-N selection of `_display_top_tags` (summary.py lines 284-289) and
`_display_top_payment_methods` (lines 304-309). -/
def topBuckets (n : Nat) (m : List (String × Rat)) : List (String × Rat) :=
  (sortSpendDesc m).take n

/-- `SummaryCommand._display_top_tags` ranking. -/
def SummaryCommand.top_tags (period : String) (subs : List Subscription) (n : Nat) :
    List (String × Rat) :=
  topBuckets n (tagCosts period subs)

/-- `SummaryCommand._display_top_payment_methods` ranking. -/
def SummaryCommand.top_payment_methods (period : String) (subs : List Subscription)
    (n : Nat) : List (String × Rat) :=
  topBuckets n (paymentCosts period subs)

/-- Sum of the bucket values of an association table. -/
def sumVals (m : List (String × Rat)) : Rat :=
  (m.map Prod.snd).sum

/-- Combined contribution of one subscription to all the tag buckets it
feeds: once for an untagged subscription, once per tag otherwise. -/
def tagContribution (period : String) (s : Subscription) : Rat :=
  if s.tags.isEmpty then periodCost period s
  else periodCost period s * s.tags.length

/-! ## Definitions following the spec's words (for refinement comparisons) -/

/-- Modelled from the spec (section 4.4 and claim C6): the
monthly-equivalent cost per billing cycle — monthly: the cost itself;
quarterly: cost / 3; annual: cost / 12; biannual: cost / 6 (the value
forced by the spec's `monthly-equivalent × 12 = annual-equivalent = 2 ×
cost` relation). -/
def specMonthlyEquivalent (cost : Rat) (cycle : String) : Rat :=
  if cycle = "monthly" then cost
  else if cycle = "quarterly" then cost / 3
  else if cycle = "biannual" then cost / 6
  else if cycle = "annual" then cost / 12
  else 0

/-- Codepoint-lexicographic comparison of character lists, written
structurally so that it evaluates; this is the order of Lean and Python
string `<`. -/
def charListLt : List Char → List Char → Bool
  | [], [] => false
  | [], _ :: _ => true
  | _ :: _, [] => false
  | c :: cs, d :: ds =>
    c.toNat < d.toNat || (c.toNat = d.toNat && charListLt cs ds)

/-- Codepoint-lexicographic string comparison. -/
def strLtb (a b : String) : Bool :=
  charListLt a.toList b.toList

/-- Modelled from the spec (claim C10): the claimed ranking order —
strictly descending spend, ties broken by bucket name ascending. -/
def specTopOrdered : List (String × Rat) → Bool
  | [] => true
  | [_] => true
  | x :: y :: rest =>
    (decide (y.snd < x.snd) || (decide (x.snd = y.snd) && strLtb x.fst y.fst)) &&
      specTopOrdered (y :: rest)

/-! ## Concrete example inputs used by counterexamples and witnesses -/

/-- A parent subscription row (id 1). -/
def exampleParentRow : Row :=
  { id := 1, name := "Parent", cost := 10, billing_cycle := "monthly",
    currency := "USD", start_date := "2024-01-01", renewal_date := "2024-02-01",
    payment_method := "card", status := "active", tags := "", notes := none,
    trial_end_date := none, parent_subscription_id := none,
    created_at := "T", updated_at := "T" }

/-- A child row whose `parent_subscription_id` references row 1. -/
def exampleChildRow : Row :=
  { id := 2, name := "Child", cost := 5, billing_cycle := "monthly",
    currency := "USD", start_date := "2024-01-01", renewal_date := "2024-02-01",
    payment_method := "card", status := "active", tags := "", notes := none,
    trial_end_date := none, parent_subscription_id := some 1,
    created_at := "T", updated_at := "T" }

/-- `add --name Netflix --cost 15 --billing-cycle monthly --currency USD
--start-date 2024-01-01`. -/
def exampleAddArgs : AddArgs :=
  { name := "Netflix", cost := .val 15, billing_cycle := "monthly",
    currency := "USD", start_date := "2024-01-01", renewal_date := none,
    payment_method := "", notes := none, trial_end_date := none,
    linked_to := none, status := "active", help_status := false, tags := none }

/-- `budget --set -5 --currency USD` (argparse parses `--set -5` as the
float -5.0). -/
def exampleBudgetArgs : BudgetArgs :=
  { set := some (-5), view := false, currency := some "USD", year := none,
    month := none, detailed := false, show_rates := false,
    base_currency := none, set_rate := none, tag := none,
    payment_method := none, rate_overrides := none }

/-- A quarterly subscription with cost 30. -/
def exampleQuarterlySub : Subscription :=
  { name := "Gym", cost := 30, billing_cycle := "quarterly", currency := "USD",
    start_date := "2024-01-01", renewal_date := "2024-04-01",
    payment_method := none, notes := none, status := "active",
    trial_end_date := none, parent_subscription_id := none, tags := [],
    created_at := "T", updated_at := "T" }

/-- A subscription tagged `beta`, cost 5 (appears first). -/
def exampleSubBeta : Subscription :=
  { name := "s1", cost := 5, billing_cycle := "monthly", currency := "USD",
    start_date := "2024-01-01", renewal_date := "2024-02-01",
    payment_method := some "card", notes := none, status := "active",
    trial_end_date := none, parent_subscription_id := none, tags := ["beta"],
    created_at := "T", updated_at := "T" }

/-- A subscription tagged `alpha`, cost 5 (appears second). -/
def exampleSubAlpha : Subscription :=
  { name := "s2", cost := 5, billing_cycle := "monthly", currency := "USD",
    start_date := "2024-01-01", renewal_date := "2024-02-01",
    payment_method := some "cash", notes := none, status := "active",
    trial_end_date := none, parent_subscription_id := none, tags := ["alpha"],
    created_at := "T", updated_at := "T" }

/-- A subscription carrying two tags, cost 7. -/
def exampleMultiTagSub : Subscription :=
  { name := "s3", cost := 7, billing_cycle := "monthly", currency := "USD",
    start_date := "2024-01-01", renewal_date := "2024-02-01",
    payment_method := some "card", notes := none, status := "active",
    trial_end_date := none, parent_subscription_id := none,
    tags := ["news", "video"], created_at := "T", updated_at := "T" }

/-- The `Subscription` object `exampleAddArgs` builds before persistence. -/
def exampleBuiltSub : Subscription :=
  { name := "Netflix", cost := 15, billing_cycle := "monthly", currency := "USD",
    start_date := "2024-01-01", renewal_date := "2024-02-01",
    payment_method := none, notes := none, status := "active",
    trial_end_date := none, parent_subscription_id := none, tags := [],
    created_at := "T", updated_at := "T" }

/-- A default `summary` invocation (no filters, threshold 7). -/
def exampleSummaryArgs : SummaryArgs :=
  { status := none, payment_methods := none, tags := none, currency := none,
    by_tag := false, by_payment_method := false, top_tags := none,
    top_payments := none, period := "monthly", include_cancelled := false,
    expiring_days := 7 }

/-- The subscription the constructor accepts although its supplied renewal
date precedes its start date. -/
def exampleBackdatedSub : Subscription :=
  { name := "X", cost := 5, billing_cycle := "monthly", currency := "USD",
    start_date := "2024-01-02", renewal_date := "2024-01-01",
    payment_method := none, notes := none, status := "active",
    trial_end_date := none, parent_subscription_id := none, tags := [],
    created_at := "T", updated_at := "T" }

/-! ## General lemmas shared by the claim theorems -/

theorem except_throw (e : ε) : (throw e : Except ε α) = .error e := rfl

theorem except_bind_error (e : ε) (f : α → Except ε β) :
    ((Except.error e : Except ε α) >>= f) = .error e := rfl

theorem except_bind_ok (a : α) (f : α → Except ε β) :
    (Except.ok a >>= f) = f a := rfl

theorem except_map_error (g : α → β) (e : ε) :
    (g <$> (Except.error e : Except ε α)) = .error e := rfl

theorem except_map_ok (g : α → β) (a : α) :
    (g <$> (Except.ok a : Except ε α)) = .ok (g a) := rfl

theorem except_pure (a : α) : (pure a : Except ε α) = .ok a := rfl

/-- `add_subscription` on a dict argument raises at the very first
attribute access, `subscription.name`. -/
theorem add_subscription_dict (db : List Row) (d : List (String × PyVal)) (t : String) :
    DatabaseManager.add_subscription db (.dictObj d) t =
      .error (.attributeError "name") := rfl

/-- Whatever else the inputs are, a `Subscription` the constructor accepts
has the (positive) cost it was given: both the `set_cost` guard and the
`cost` setter raise on a non-positive value. -/
theorem init_ok_cost (nm : String) (cost : Rat) (bc cur start : String)
    (rd : Option String) (pm : String) (notes : Option String) (st : String)
    (ted : Option String) (pid : Option Nat) (tags : List String) (t : String)
    (s : Subscription)
    (h : Subscription.init nm cost bc cur start rd pm notes st ted pid tags t = .ok s) :
    0 < cost ∧ s.cost = cost := by
  unfold Subscription.init at h
  simp only [except_throw, except_bind_error, except_bind_ok, except_map_error,
    except_map_ok, except_pure] at h
  by_cases h1 : nm = ""
  · simp [h1] at h
  · simp only [h1, reduceIte] at h
    by_cases h2 : cost < 0
    · simp [h2] at h
    · simp only [h2, reduceIte] at h
      by_cases h3 : cost ≤ 0
      · simp [h3] at h
      · refine ⟨not_le.mp h3, ?_⟩
        simp only [h3, reduceIte] at h
        by_cases h4 : VALID_BILLING_CYCLES.contains (strLower bc) = false
        · rw [if_pos h4] at h
          cases h
        · rw [if_neg h4] at h
          by_cases h5 : validate_date_format start = false
          · rw [if_pos h5] at h
            cases h
          · rw [if_neg h5] at h
            cases hr : rd with
            | some r =>
              rw [hr] at h
              dsimp only [] at h
              by_cases h7 : validate_date_format r = true
              · rw [if_pos h7] at h
                by_cases h6 : VALID_STATUSES.contains st = false
                · rw [if_pos h6] at h
                  cases h
                · rw [if_neg h6] at h
                  cases h
                  rfl
              · rw [if_neg h7] at h
                cases h
            | none =>
              rw [hr] at h
              dsimp only [] at h
              cases hp : parseISODate start with
              | some d =>
                simp only [parse_date, hp, except_bind_ok] at h
                cases hcn : calculate_next_renewal d (strLower bc) with
                | ok nd =>
                  simp only [hcn, except_bind_ok] at h
                  by_cases h6 : VALID_STATUSES.contains st = false
                  · rw [if_pos h6] at h
                    cases h
                  · rw [if_neg h6] at h
                    cases h
                    rfl
                | error e => simp [hcn, except_bind_error] at h
              | none => simp [parse_date, hp, except_bind_error] at h

/-- The add command's `_validate_dates` rejects a well-formed renewal date
that precedes the start date. -/
theorem validate_dates_rejects (start2 r2 : String) (sd2 rd2 : Date)
    (hs : parseISODate start2 = some sd2) (hr : parseISODate r2 = some rd2)
    (hlt : rd2.ltb sd2 = true) (hne : r2 ≠ "") :
    AddCommand.validate_dates start2 (some r2) none =
      .error "Renewal date cannot be earlier than start date." := by
  have h1 : validate_date_format start2 = true := by simp [validate_date_format, hs]
  have h2 : validate_date_format r2 = true := by simp [validate_date_format, hr]
  simp [AddCommand.validate_dates, h1, h2, hne, parse_date, hs, hr, hlt,
    except_throw, except_bind_error, except_bind_ok, except_pure]

/-- Bumping one bucket adds exactly the bumped value to the value total. -/
theorem sum_bumpKey (m : List (String × Rat)) (k : String) (v : Rat) :
    sumVals (bumpKey m k v) = sumVals m + v := by
  induction m with
  | nil => simp [bumpKey, sumVals]
  | cons p rest ih =>
    by_cases hp : p.fst = k
    · simp [bumpKey, hp, sumVals]
      ring
    · simp [bumpKey, hp, sumVals] at ih ⊢
      rw [ih]
      ring

/-- The payment-method buckets partition the subscriptions, so their
values add up to the total period spend. -/
theorem sum_paymentCosts (period : String) (subs : List Subscription) :
    sumVals (paymentCosts period subs) = totalSpend period subs := by
  suffices h : ∀ m, sumVals (subs.foldl
      (fun m sub => bumpKey m (sub.payment_method.getD "Unknown") (periodCost period sub)) m) =
      sumVals m + totalSpend period subs by
    simpa [paymentCosts, sumVals, totalSpend] using h []
  induction subs with
  | nil =>
    intro m
    simp [totalSpend]
  | cons s rest ih =>
    intro m
    simp only [List.foldl_cons, totalSpend, List.map_cons, List.sum_cons]
    rw [ih, sum_bumpKey]
    simp [totalSpend]
    ring

/-- Feeding every tag bucket of one subscription adds its cost once per
tag. -/
theorem sum_tags_foldl (c : Rat) (tags : List String) (m : List (String × Rat)) :
    sumVals (tags.foldl (fun m2 t => bumpKey m2 t c) m) = sumVals m + c * tags.length := by
  induction tags generalizing m with
  | nil => simp
  | cons t rest ih =>
    simp only [List.foldl_cons, ih, sum_bumpKey, List.length_cons]
    push_cast
    ring

/-- The tag-bucket value total is the sum of the per-subscription tag
contributions. -/
theorem sum_tagCosts (period : String) (subs : List Subscription) :
    sumVals (tagCosts period subs) = (subs.map (tagContribution period)).sum := by
  suffices h : ∀ m, sumVals (subs.foldl (fun m sub =>
      if sub.tags.isEmpty then bumpKey m "Untagged" (periodCost period sub)
      else sub.tags.foldl (fun m2 tag => bumpKey m2 tag (periodCost period sub)) m) m) =
      sumVals m + (subs.map (tagContribution period)).sum by
    simpa [tagCosts, sumVals] using h []
  induction subs with
  | nil =>
    intro m
    simp
  | cons s rest ih =>
    intro m
    simp only [List.foldl_cons, List.map_cons, List.sum_cons, ih]
    by_cases hs : s.tags.isEmpty
    · simp [hs, sum_bumpKey, tagContribution]
      ring
    · simp [hs, sum_tags_foldl, tagContribution]
      ring

theorem insertSpendDesc_cons (x z : String × Rat) (zs : List (String × Rat)) :
    insertSpendDesc x (z :: zs) =
      if x.snd < z.snd then z :: insertSpendDesc x zs else x :: z :: zs := rfl

theorem mem_insertSpendDesc {x y : String × Rat} {l : List (String × Rat)} :
    y ∈ insertSpendDesc x l ↔ y = x ∨ y ∈ l := by
  induction l with
  | nil => simp [insertSpendDesc]
  | cons z zs ih =>
    rw [insertSpendDesc_cons]
    by_cases h : x.snd < z.snd
    · rw [if_pos h]
      simp [ih]
      tauto
    · rw [if_neg h]
      simp

theorem pairwise_insertSpendDesc (x : String × Rat) (l : List (String × Rat))
    (h : l.Pairwise (fun a b => b.snd ≤ a.snd)) :
    (insertSpendDesc x l).Pairwise (fun a b => b.snd ≤ a.snd) := by
  induction l with
  | nil => simp [insertSpendDesc]
  | cons z zs ih =>
    rw [List.pairwise_cons] at h
    rw [insertSpendDesc_cons]
    by_cases hx : x.snd < z.snd
    · rw [if_pos hx, List.pairwise_cons]
      refine ⟨?_, ih h.2⟩
      intro a ha
      rw [mem_insertSpendDesc] at ha
      rcases ha with rfl | ha
      · exact hx.le
      · exact h.1 a ha
    · rw [if_neg hx, List.pairwise_cons]
      push_neg at hx
      refine ⟨?_, List.pairwise_cons.mpr ⟨h.1, h.2⟩⟩
      intro a ha
      rcases List.mem_cons.mp ha with rfl | ha
      · exact hx
      · exact (h.1 a ha).trans hx

/-- The list `sorted(..., key=value, reverse=True)` returns is ordered by
non-increasing value. -/
theorem pairwise_sortSpendDesc (l : List (String × Rat)) :
    (sortSpendDesc l).Pairwise (fun a b => b.snd ≤ a.snd) := by
  induction l with
  | nil => simp [sortSpendDesc]
  | cons x xs ih => exact pairwise_insertSpendDesc x _ ih

theorem filter_insertSpendDesc (v : Rat) (x : String × Rat) (l : List (String × Rat)) :
    (insertSpendDesc x l).filter (fun p => p.snd = v) =
      if x.snd = v then x :: l.filter (fun p => p.snd = v)
      else l.filter (fun p => p.snd = v) := by
  induction l with
  | nil =>
    by_cases hx : x.snd = v <;> simp [insertSpendDesc, List.filter, hx]
  | cons z zs ih =>
    rw [insertSpendDesc_cons]
    by_cases hxz : x.snd < z.snd
    · rw [if_pos hxz]
      by_cases hz : z.snd = v
      · have hx : ¬ x.snd = v := by
          rw [← hz]
          exact ne_of_lt hxz
        simp [List.filter_cons, hz, hx, ih]
      · simp [List.filter_cons, hz, ih]
    · rw [if_neg hxz]
      by_cases hx : x.snd = v <;> by_cases hz : z.snd = v <;>
        simp [hx, hz, List.filter_cons]

/-- Stability of the ranking sort: the buckets of any fixed spend value
appear in exactly their original (first-insertion) order. -/
theorem filter_sortSpendDesc (v : Rat) (l : List (String × Rat)) :
    (sortSpendDesc l).filter (fun p => p.snd = v) = l.filter (fun p => p.snd = v) := by
  induction l with
  | nil => rfl
  | cons x xs ih =>
    rw [sortSpendDesc, filter_insertSpendDesc, List.filter_cons, ih]
    by_cases hx : x.snd = v <;> simp [hx]

/-- Every rate of the view command's table is positive. -/
theorem rateLookup_view_pos (c : String) (r : Rat)
    (h : rateLookup ViewCommand.EXCHANGE_RATES c = some r) : 0 < r := by
  obtain ⟨p, hp, hpr⟩ := Option.map_eq_some'.mp h
  have hmem := List.mem_of_find?_eq_some hp
  subst hpr
  fin_cases hmem <;> norm_num

/-- Every key of the view command's table is a nonempty code. -/
theorem rateLookup_view_key_ne (c : String) (r : Rat)
    (h : rateLookup ViewCommand.EXCHANGE_RATES c = some r) : c ≠ "" := by
  obtain ⟨p, hp, _⟩ := Option.map_eq_some'.mp h
  have hpc : p.fst = c := by
    have := List.find?_some hp
    simpa using this
  have hmem := List.mem_of_find?_eq_some hp
  subst hpc
  fin_cases hmem <;> simp

/-! ## Claim theorems -/

/-- Claim C3 (code_bug evidence): on a store holding a parent row and a
child row referencing it, every delete invocation targeting the parent —
confirmed, dry-run, or force — raises `AttributeError` on the call
`db_manager.get_subscriptions()` (a method `DatabaseManager` does not
define) before the child-subscription guard can run, so no list of
blocking children is reported; the rows are left unchanged and the
interpreter exits with a traceback. -/
theorem C3_delete_with_children_crashes :
    exampleChildRow.parent_subscription_id = some exampleParentRow.id ∧
    DatabaseManager.methodNames.contains "get_subscriptions" = false ∧
    DeleteCommand.execute
        { name := some "Parent", id := none, dry_run := false, force := false,
          confirm := true } [exampleParentRow, exampleChildRow] =
      .raised (.attributeError "get_subscriptions")
        [exampleParentRow, exampleChildRow] ∧
    DeleteCommand.execute
        { name := some "Parent", id := none, dry_run := true, force := false,
          confirm := false } [exampleParentRow, exampleChildRow] =
      .raised (.attributeError "get_subscriptions")
        [exampleParentRow, exampleChildRow] ∧
    DeleteCommand.execute
        { name := some "Parent", id := none, dry_run := false, force := true,
          confirm := false } [exampleParentRow, exampleChildRow] =
      .raised (.attributeError "get_subscriptions")
        [exampleParentRow, exampleChildRow] := by
  exact ⟨rfl, by decide, rfl, rfl, rfl⟩

/-- Claim C5 (code_bug evidence): for `budget --set -5 --currency USD`,
`validate_args` reports failure with the message `Budget amount must be
positive`, but `execute` discards that result and proceeds; the manager's
own `ValueError` is caught and merely printed, `execute` returns `None`,
and the process exits with code 0 — not 1 — on a validation error. -/
theorem C5_budget_validation_ignored :
    (BudgetCommand.validate_args exampleBudgetArgs ⟨2024, 2, 1⟩).fst = false ∧
    (BudgetCommand.validate_args exampleBudgetArgs ⟨2024, 2, 1⟩).snd.fst =
      "Budget amount must be positive" ∧
    BudgetCommand.execute exampleBudgetArgs [] ⟨2024, 2, 1⟩ =
      .finished ["Error: Budget amount must be positive"] [] ∧
    budgetExitCode (BudgetCommand.execute exampleBudgetArgs [] ⟨2024, 2, 1⟩) = 0 := by
  exact ⟨rfl, rfl, rfl, rfl⟩

/-- Claim C6 counterexample: a quarterly subscription with cost 30 has
`annual_cost` 120 (the claimed `cost × 4` multiplier) but
`calculate_annual_cost` returns the raw cost 30 — the program's
annual-cost computations do not all agree with the claimed multipliers. -/
theorem C6_counterexample :
    exampleQuarterlySub.cost = 30 ∧
    exampleQuarterlySub.billing_cycle = "quarterly" ∧
    exampleQuarterlySub.annual_cost = 120 ∧
    Subscription.calculate_annual_cost exampleQuarterlySub = 30 := by
  refine ⟨rfl, rfl, ?_, rfl⟩
  norm_num [Subscription.annual_cost, exampleQuarterlySub, annualMultiplier]
  decide

/-- Claim C7 counterexample: with the budget command's rate table,
converting 1 JPY to USD gives 0.01, and converting that back gives 1.41 —
off from the original amount by 0.41, far beyond the stored two-decimal
precision. -/
theorem C7_counterexample :
    BudgetCommand.convert_currency BudgetCommand.EXCHANGE_RATES 1 "JPY" "USD" =
      .ok (1 / 100) ∧
    BudgetCommand.convert_currency BudgetCommand.EXCHANGE_RATES (1 / 100) "USD" "JPY" =
      .ok (141 / 100) ∧
    ¬ ((141 : Rat) / 100 - 1 ≤ 1 / 100) := by
  refine ⟨?_, ?_, by norm_num⟩
  · have h : round2 (1 * (0.0071 : Rat)) = 1 / 100 := by
      unfold round2 roundHalfEven
      norm_num
    calc BudgetCommand.convert_currency BudgetCommand.EXCHANGE_RATES 1 "JPY" "USD"
        = .ok (round2 (1 * (0.0071 : Rat))) := rfl
      _ = .ok (1 / 100) := by rw [h]
  · have h : round2 (1 / 100 * 1 / (0.0071 : Rat)) = 141 / 100 := by
      unfold round2 roundHalfEven
      norm_num
    calc BudgetCommand.convert_currency BudgetCommand.EXCHANGE_RATES (1 / 100) "USD" "JPY"
        = .ok (round2 (1 / 100 * 1 / (0.0071 : Rat))) := rfl
      _ = .ok (141 / 100) := by rw [h]

/-- Claim C10 counterexample: two equal-spend tag buckets are listed in
first-insertion order (`beta` before `alpha`), not by bucket name
ascending as claimed. -/
theorem C10_counterexample :
    SummaryCommand.top_tags "monthly" [exampleSubBeta, exampleSubAlpha] 2 =
      [("beta", 5), ("alpha", 5)] ∧
    specTopOrdered [("beta", 5), ("alpha", 5)] = false ∧
    strLtb "alpha" "beta" = true := by
  refine ⟨rfl, by decide, by decide⟩

/-- Claim C1 counterexample: `annual` *is* a billing cycle the Subscription
model accepts, yet constructing a subscription with it and no explicit
renewal date fails — `calculate_next_renewal` handles only `monthly` and
`yearly` and raises `ValueError` for `annual`. -/
theorem C1_counterexample :
    VALID_BILLING_CYCLES.contains "annual" = true ∧
    calculate_next_renewal ⟨2024, 1, 1⟩ "annual" =
      .error "Invalid billing cycle. Use monthly or yearly." ∧
    Subscription.init "Netflix" 15 "annual" "USD" "2024-01-01" none "" none
        "active" none none [] "T" =
      .error "Invalid billing cycle. Use monthly or yearly." := by
  exact ⟨by decide, rfl, rfl⟩

/-- Claim C1 (amended): a subscription created without an explicit
renewal_date derives it as start_date advanced by exactly one calendar
month when billing_cycle is `monthly`; for every other billing cycle the
model accepts (`quarterly`, `biannual`, `annual`) the derivation raises
and construction fails; advancing by one calendar year is implemented
only for the cycle string `yearly`, which the Subscription model itself
rejects. -/
theorem C1_renewal_derivation (nm cur start t : String) (cost : Rat) (d : Date)
    (hnm : nm ≠ "") (hc : 0 < cost) (hd : parseISODate start = some d) :
    (Subscription.init nm cost "monthly" cur start none "" none "active"
        none none [] t =
      .ok { name := nm, cost := cost, billing_cycle := "monthly", currency := cur,
            start_date := start, renewal_date := (addOneMonth d).toISO,
            payment_method := none, notes := none, status := "active",
            trial_end_date := none, parent_subscription_id := none, tags := [],
            created_at := t, updated_at := t }) ∧
    (∀ cycle ∈ (["quarterly", "biannual", "annual"] : List String),
      Subscription.init nm cost cycle cur start none "" none "active"
          none none [] t =
        .error "Invalid billing cycle. Use monthly or yearly.") ∧
    (∀ e : Date, calculate_next_renewal e "yearly" = .ok (addOneYear e)) ∧
    VALID_BILLING_CYCLES.contains "yearly" = false := by
  have h1 : ¬ (cost < 0) := not_lt.mpr hc.le
  have h2 : ¬ (cost ≤ 0) := not_le.mpr hc
  have h3 : validate_date_format start = true := by simp [validate_date_format, hd]
  refine ⟨?_, ?_, ?_, by decide⟩
  · have h4 : strLower "monthly" = "monthly" := by decide
    have h5 : ("monthly" : String) ∈ VALID_BILLING_CYCLES := by decide
    have h6 : ("active" : String) ∈ VALID_STATUSES := by decide
    simp [Subscription.init, hnm, h1, h2, h3, h4, h5, h6, parse_date, hd,
      calculate_next_renewal, except_throw, except_bind_error, except_bind_ok,
      except_map_error, except_map_ok, except_pure]
  · intro cycle hcyc
    fin_cases hcyc <;>
      simp [Subscription.init, hnm, h1, h2, h3, parse_date, hd,
        calculate_next_renewal, except_throw, except_bind_error, except_bind_ok,
        except_map_error, except_map_ok, except_pure,
        show strLower "quarterly" = "quarterly" from by decide,
        show strLower "biannual" = "biannual" from by decide,
        show strLower "annual" = "annual" from by decide,
        show ("quarterly" : String) ∈ VALID_BILLING_CYCLES from by decide,
        show ("biannual" : String) ∈ VALID_BILLING_CYCLES from by decide,
        show ("annual" : String) ∈ VALID_BILLING_CYCLES from by decide,
        show ("active" : String) ∈ VALID_STATUSES from by decide]
  · intro e
    simp [calculate_next_renewal, show strLower "yearly" = "yearly" from by decide]

/-- Claim C1 witness: the derivation at a concrete start date. -/
theorem C1_renewal_derivation_witness :
    Subscription.init "Netflix" 15 "monthly" "USD" "2024-01-01" none "" none
        "active" none none [] "T" =
      .ok { name := "Netflix", cost := 15, billing_cycle := "monthly",
            currency := "USD", start_date := "2024-01-01",
            renewal_date := "2024-02-01", payment_method := none, notes := none,
            status := "active", trial_end_date := none,
            parent_subscription_id := none, tags := [],
            created_at := "T", updated_at := "T" } ∧
    Subscription.init "Netflix" 15 "quarterly" "USD" "2024-01-01" none "" none
        "active" none none [] "T" =
      .error "Invalid billing cycle. Use monthly or yearly." ∧
    calculate_next_renewal ⟨2023, 2, 28⟩ "yearly" = .ok ⟨2024, 2, 28⟩ := by
  obtain ⟨hm, hcyc, hy, _⟩ := C1_renewal_derivation "Netflix" "USD" "2024-01-01"
    "T" 15 ⟨2024, 1, 1⟩ (by decide) (by norm_num) rfl
  exact ⟨hm, hcyc "quarterly" (by decide), hy ⟨2023, 2, 28⟩⟩

/-- Claim C2 counterexample: the constructor accepts a field combination
whose supplied renewal date (2024-01-01) precedes the start date
(2024-01-02) — it validates only the date format — refuting the claim that
the constructor rejects every such input. -/
theorem C2_counterexample :
    Subscription.init "X" 5 "monthly" "USD" "2024-01-02" (some "2024-01-01")
        "" none "active" none none [] "T" = .ok exampleBackdatedSub ∧
    parseISODate exampleBackdatedSub.renewal_date = some ⟨2024, 1, 1⟩ ∧
    parseISODate exampleBackdatedSub.start_date = some ⟨2024, 1, 2⟩ ∧
    Date.ltb ⟨2024, 1, 1⟩ ⟨2024, 1, 2⟩ = true := by
  exact ⟨rfl, rfl, rfl, by decide⟩

/-- Claim C2 (amended): every field combination the Subscription
constructor accepts satisfies cost > 0; the `renewal_date >= start_date`
requirement, however, is *not* enforced by the constructor (which checks
only the format of a supplied renewal date — see the counterexample) but
by the add command's `_validate_dates`, which rejects every well-formed
renewal date preceding the start date. -/
theorem C2_constructor_invariants (nm : String) (cost : Rat) (bc cur start : String)
    (rd : Option String) (pm : String) (notes : Option String) (st : String)
    (ted : Option String) (pid : Option Nat) (tags : List String) (t : String)
    (s : Subscription)
    (h : Subscription.init nm cost bc cur start rd pm notes st ted pid tags t = .ok s) :
    0 < s.cost ∧
    (∀ start2 r2 : String, ∀ sd2 rd2 : Date,
      parseISODate start2 = some sd2 → parseISODate r2 = some rd2 →
      rd2.ltb sd2 = true → r2 ≠ "" →
      AddCommand.validate_dates start2 (some r2) none =
        .error "Renewal date cannot be earlier than start date.") := by
  obtain ⟨hpos, hcost⟩ := init_ok_cost nm cost bc cur start rd pm notes st ted
    pid tags t s h
  refine ⟨by rw [hcost]; exact hpos, ?_⟩
  intro start2 r2 sd2 rd2 hs hr hlt hne
  exact validate_dates_rejects start2 r2 sd2 rd2 hs hr hlt hne

/-- Claim C2 witness: the amended invariants at the counterexample's
concrete input. -/
theorem C2_constructor_invariants_witness :
    0 < exampleBackdatedSub.cost ∧
    AddCommand.validate_dates "2024-01-02" (some "2024-01-01") none =
      .error "Renewal date cannot be earlier than start date." := by
  obtain ⟨h1, h2⟩ := C2_constructor_invariants "X" 5 "monthly" "USD" "2024-01-02"
    (some "2024-01-01") "" none "active" none none [] "T" exampleBackdatedSub rfl
  exact ⟨h1, h2 "2024-01-02" "2024-01-01" ⟨2024, 1, 2⟩ ⟨2024, 1, 1⟩ rfl rfl
    (by decide) (by decide)⟩

/-- Claim C4: for every invocation of the add command the subscriptions
table is left unchanged, and every argument set that passes validation and
construction — i.e. whose build stage yields a `Subscription` — ends in
the generic unexpected-error message with exit code 1, because the
persistence step passes `subscription.to_dict()` (a dict) to
`DatabaseManager.add_subscription`, which reads object attributes and so
raises `AttributeError` at `subscription.name`. -/
theorem C4_add_never_inserts (args : AddArgs) (db : List Row) (t : String) :
    (AddCommand.execute args db t).db = db ∧
    (∀ s, AddCommand.buildStage args db t = .ok (.built s) →
      AddCommand.execute args db t =
        { exit := 1, output := [genericErrorMsg ++ ": " ++ "name"], db := db }) := by
  cases hb : AddCommand.buildStage args db t with
  | error e =>
    have ht : AddCommand.tryBody args db t = .error e := by
      simp [AddCommand.tryBody, hb, except_bind_error]
    constructor
    · cases e <;> simp [AddCommand.execute, ht]
    · intro s hs
      simp at hs
  | ok o =>
    cases o with
    | helpStatus =>
      have ht : AddCommand.tryBody args db t =
          .ok { exit := 0, output := ["Valid statuses: ..."], db := db } := by
        simp [AddCommand.tryBody, hb, except_bind_ok]
        rfl
      refine ⟨by simp [AddCommand.execute, ht], ?_⟩
      intro s hs
      simp at hs
    | invalidStatus =>
      have ht : AddCommand.tryBody args db t =
          .ok { exit := 1, output := ["Error: not a valid status."], db := db } := by
        simp [AddCommand.tryBody, hb, except_bind_ok]
        rfl
      refine ⟨by simp [AddCommand.execute, ht], ?_⟩
      intro s hs
      simp at hs
    | built s0 =>
      have ht : AddCommand.tryBody args db t = .error (.attributeError "name") := by
        simp [AddCommand.tryBody, hb, except_bind_ok, add_subscription_dict,
          except_bind_error]
      refine ⟨by simp [AddCommand.execute, ht], ?_⟩
      intro s hs
      simp [AddCommand.execute, ht]

/-- Claim C4 witness: a fully valid `add` invocation on an empty table
builds its subscription, yet exits 1 with the generic message and inserts
nothing. -/
theorem C4_add_never_inserts_witness :
    AddCommand.buildStage exampleAddArgs [] "T" = .ok (.built exampleBuiltSub) ∧
    AddCommand.execute exampleAddArgs [] "T" =
      { exit := 1, output := [genericErrorMsg ++ ": " ++ "name"], db := [] } :=
  ⟨rfl, (C4_add_never_inserts exampleAddArgs [] "T").2 exampleBuiltSub rfl⟩

/-- Claim C6 (amended): the spec's monthly-equivalents times 12 equal the
cycle multipliers of the `annual_cost` property for every supported cycle,
and that property follows the claimed multipliers exactly; but
`calculate_annual_cost` agrees only for `monthly` (x12) and `annual`
(identity), returning the raw cost for `quarterly` and `biannual`; and the
view summary recognises only the `monthly` and `yearly` cycle strings,
counting nothing for the other model cycles. -/
theorem C6_annual_cost_multipliers (s : Subscription) (cost : Rat) :
    (∀ cycle ∈ VALID_BILLING_CYCLES,
      specMonthlyEquivalent cost cycle * 12 = cost * annualMultiplier cycle) ∧
    s.annual_cost = s.cost * annualMultiplier s.billing_cycle ∧
    (s.billing_cycle = "monthly" ∨ s.billing_cycle = "annual" →
      s.calculate_annual_cost = s.annual_cost) ∧
    (s.billing_cycle = "quarterly" ∨ s.billing_cycle = "biannual" →
      s.calculate_annual_cost = s.cost) ∧
    ViewCommand.monthlyContribution cost "monthly" * 12 =
      ViewCommand.yearlyContribution cost "monthly" ∧
    ViewCommand.monthlyContribution cost "yearly" * 12 =
      ViewCommand.yearlyContribution cost "yearly" ∧
    (∀ cycle ∈ VALID_BILLING_CYCLES, cycle ≠ "monthly" →
      ViewCommand.monthlyContribution cost cycle = 0 ∧
      ViewCommand.yearlyContribution cost cycle = 0) := by
  refine ⟨?_, rfl, ?_, ?_, ?_, ?_, ?_⟩
  · intro cycle hcyc
    fin_cases hcyc <;> simp [specMonthlyEquivalent, annualMultiplier] <;> ring
  · rintro (h | h) <;>
      simp [Subscription.calculate_annual_cost, Subscription.annual_cost,
        annualMultiplier, h]
  · rintro (h | h) <;>
      simp [Subscription.calculate_annual_cost, h]
  · norm_num [ViewCommand.monthlyContribution, ViewCommand.yearlyContribution]
  · norm_num [ViewCommand.monthlyContribution, ViewCommand.yearlyContribution]
  · intro cycle hcyc hne
    fin_cases hcyc <;>
      simp_all [ViewCommand.monthlyContribution, ViewCommand.yearlyContribution]

/-- Claim C6 witness: the amended statement at a quarterly subscription
with cost 30. -/
theorem C6_annual_cost_multipliers_witness :
    specMonthlyEquivalent 30 "quarterly" * 12 = 30 * annualMultiplier "quarterly" ∧
    Subscription.calculate_annual_cost exampleQuarterlySub =
      exampleQuarterlySub.cost := by
  obtain ⟨h1, _, _, h4, _⟩ := C6_annual_cost_multipliers exampleQuarterlySub 30
  exact ⟨h1 "quarterly" (by decide), h4 (Or.inl rfl)⟩

/-- Claim C7 (amended): converting an amount between identical currencies
returns it unchanged in both converters; and the view converter's round
trip through any two currencies of its rate table returns the amount
exactly (it never rounds); the budget converter's two-decimal rounding,
however, can leave the round trip off by far more than the stored
precision (see the counterexample). -/
theorem C7_conversion_roundtrip (rates : List (String × Rat)) (amount : Rat)
    (c X Y : String) (rX rY : Rat)
    (hX : rateLookup ViewCommand.EXCHANGE_RATES X = some rX)
    (hY : rateLookup ViewCommand.EXCHANGE_RATES Y = some rY) :
    BudgetCommand.convert_currency rates amount c c = .ok amount ∧
    ViewCommand.convert_currency amount c c = .ok amount ∧
    ∃ b : Rat, ViewCommand.convert_currency amount X Y = .ok b ∧
      ViewCommand.convert_currency b Y X = .ok amount := by
  refine ⟨by simp [BudgetCommand.convert_currency],
    by simp [ViewCommand.convert_currency], ?_⟩
  by_cases hXY : X = Y
  · subst hXY
    exact ⟨amount, by simp [ViewCommand.convert_currency],
      by simp [ViewCommand.convert_currency]⟩
  · have hYne : Y ≠ "" := rateLookup_view_key_ne Y rY hY
    have hXne : X ≠ "" := rateLookup_view_key_ne X rX hX
    have hrX : (0 : Rat) < rX := rateLookup_view_pos X rX hX
    have hrY : (0 : Rat) < rY := rateLookup_view_pos Y rY hY
    refine ⟨amount / rX * rY, ?_, ?_⟩
    · unfold ViewCommand.convert_currency
      rw [if_neg (not_or.mpr ⟨hXY, hYne⟩), hX, hY]
    · unfold ViewCommand.convert_currency
      rw [if_neg (not_or.mpr ⟨fun h => hXY h.symm, hXne⟩), hY, hX]
      simp only [Except.ok.injEq]
      field_simp
      ring

/-- Claim C7 witness: the round-trip properties at 7 JPY and EUR. -/
theorem C7_conversion_roundtrip_witness :
    BudgetCommand.convert_currency BudgetCommand.EXCHANGE_RATES 7 "JPY" "JPY" =
      .ok 7 ∧
    ViewCommand.convert_currency 7 "JPY" "JPY" = .ok 7 ∧
    ∃ b : Rat, ViewCommand.convert_currency 7 "JPY" "EUR" = .ok b ∧
      ViewCommand.convert_currency b "EUR" "JPY" = .ok 7 :=
  C7_conversion_roundtrip BudgetCommand.EXCHANGE_RATES 7 "JPY" "JPY" "EUR"
    113.5 0.85 rfl rfl

/-- Claim C8: a summary invocation leaves the subscriptions table exactly
as it was — summary.py calls no write method — and the processing loop
labels every active/trial subscription whose truthy renewal date lies
within the expiring-day window of the current date as `expiring` on the
in-memory record only, leaving the record's own status field untouched. -/
theorem C8_expiring_label (args : SummaryArgs) (db : List Row) (today : Date) :
    (SummaryCommand.execute args db today).db = db ∧
    ∀ s : Subscription, (s.status = "active" ∨ s.status = "trial") →
      s.renewal_date ≠ "" →
      is_date_within_range s.renewal_date today (addDays today args.expiring_days) = true →
      (SummaryCommand.processSub args today s).display_status = "expiring" ∧
      (SummaryCommand.processSub args today s).sub.status = s.status := by
  constructor
  · cases h : DatabaseManager.get_filtered_subscriptions db
        (SummaryCommand.buildFilters args) with
    | error e => simp [SummaryCommand.execute, h]
    | ok l => cases l <;> simp [SummaryCommand.execute, h]
  · intro s h1 h2 h3
    constructor
    · simp [SummaryCommand.processSub, h1, h2, h3]
    · unfold SummaryCommand.processSub
      by_cases hc : strOptTruthy args.currency = true ∧ s.currency ≠ args.currency.getD ""
      · simp [hc]
      · simp [hc]

/-- Claim C8 witness: a default summary invocation on a one-row table, and
the labelling of an active subscription renewing within the window. -/
theorem C8_expiring_label_witness :
    (SummaryCommand.execute exampleSummaryArgs [exampleParentRow] ⟨2024, 1, 30⟩).db =
      [exampleParentRow] ∧
    (SummaryCommand.processSub exampleSummaryArgs ⟨2024, 1, 30⟩ exampleSubBeta).display_status =
      "expiring" ∧
    (SummaryCommand.processSub exampleSummaryArgs ⟨2024, 1, 30⟩ exampleSubBeta).sub.status =
      exampleSubBeta.status := by
  obtain ⟨h1, h2⟩ := C8_expiring_label exampleSummaryArgs [exampleParentRow] ⟨2024, 1, 30⟩
  have h3 := h2 exampleSubBeta (Or.inl rfl) (by decide) (by decide)
  exact ⟨h1, h3.1, h3.2⟩

/-- Claim C9: the payment-method buckets always add up exactly to the
total period spend (each subscription feeds exactly one bucket), while the
tag buckets — each subscription feeding every one of its tag buckets with
its full cost — add up to at least the total, strictly more as soon as
some subscription carries at least two tags (costs being positive). -/
theorem C9_breakdown_sums (period : String) (subs : List Subscription) :
    sumVals (paymentCosts period subs) = totalSpend period subs ∧
    ((∀ s ∈ subs, 0 < periodCost period s) →
      totalSpend period subs ≤ sumVals (tagCosts period subs) ∧
      ((∃ s ∈ subs, 2 ≤ s.tags.length) →
        totalSpend period subs < sumVals (tagCosts period subs))) := by
  refine ⟨sum_paymentCosts period subs, ?_⟩
  intro hpos
  have hle : ∀ s ∈ subs, periodCost period s ≤ tagContribution period s := by
    intro s hs
    by_cases he : s.tags.isEmpty
    · simp [tagContribution, he]
    · have hlen : (1 : Rat) ≤ s.tags.length := by
        have : 1 ≤ s.tags.length := by
          cases hl : s.tags with
          | nil => simp [hl] at he
          | cons a l => simp
        exact_mod_cast this
      simpa [tagContribution, he] using
        le_mul_of_one_le_right (hpos s hs).le hlen
  rw [sum_tagCosts]
  constructor
  · exact List.sum_le_sum hle
  · rintro ⟨s, hs, h2⟩
    refine List.sum_lt_sum _ _ hle ⟨s, hs, ?_⟩
    have he : s.tags.isEmpty = false := by
      cases hl : s.tags with
      | nil => simp [hl] at h2
      | cons a l => simp
    have hlen : (2 : Rat) ≤ s.tags.length := by exact_mod_cast h2
    have hp := hpos s hs
    calc periodCost period s = periodCost period s * 1 := by ring
      _ < periodCost period s * 2 := by
          exact mul_lt_mul_of_pos_left (by norm_num) hp
      _ ≤ periodCost period s * s.tags.length := by
          exact mul_le_mul_of_nonneg_left hlen hp.le
      _ = tagContribution period s := by simp [tagContribution, he]

/-- Claim C9 witness: two subscriptions, one carrying two tags — the
payment buckets sum to the total, the tag buckets exceed it. -/
theorem C9_breakdown_sums_witness :
    sumVals (paymentCosts "monthly" [exampleMultiTagSub, exampleSubBeta]) =
      totalSpend "monthly" [exampleMultiTagSub, exampleSubBeta] ∧
    totalSpend "monthly" [exampleMultiTagSub, exampleSubBeta] <
      sumVals (tagCosts "monthly" [exampleMultiTagSub, exampleSubBeta]) := by
  obtain ⟨h1, h2⟩ := C9_breakdown_sums "monthly" [exampleMultiTagSub, exampleSubBeta]
  refine ⟨h1, (h2 ?_).2 ⟨exampleMultiTagSub, by simp, by decide⟩⟩
  intro s hs
  fin_cases hs <;> norm_num [periodCost, exampleMultiTagSub, exampleSubBeta]

/-- Claim C10 (amended): every top-N bucket list contains at most N
entries ordered by non-increasing spend; equal-spend buckets keep their
first-insertion (iteration) order — Python `sorted` is stable, expressed
here by the filter identity — rather than the claimed bucket-name
ascending tie-break (see the counterexample). -/
theorem C10_topn_ranking (n : Nat) (m : List (String × Rat)) (v : Rat)
    (period : String) (subs : List Subscription) :
    (topBuckets n m).length ≤ n ∧
    (topBuckets n m).Pairwise (fun a b => b.snd ≤ a.snd) ∧
    (sortSpendDesc m).filter (fun p => p.snd = v) = m.filter (fun p => p.snd = v) ∧
    SummaryCommand.top_tags period subs n = topBuckets n (tagCosts period subs) ∧
    SummaryCommand.top_payment_methods period subs n =
      topBuckets n (paymentCosts period subs) := by
  refine ⟨?_, ?_, filter_sortSpendDesc v m, rfl, rfl⟩
  · exact List.length_take_le _ _
  · exact (pairwise_sortSpendDesc m).sublist (List.take_sublist _ _)

end RenewalRadar
